import Mathlib

/-!
Shallow embedding of `src/backend/main.py` (a FastAPI search-and-summarize
service).  Network effects are made explicit: HTTP responses are passed in as
oracles (one response per attempt), page extraction outcomes are passed in as
one outcome per result index, and the number of network calls and the backoff
sleep factors performed by the summarizer retry loop are recorded in the
output.  Python values flowing through the pipeline are modelled by a small
JSON type.
-/

/-- JSON values as the Python `resp.json()` call produces them: lists, dicts
(ordered association lists with unique keys), strings, integers, booleans and
null. -/
inductive Json where
  | list (xs : List Json)
  | dict (kvs : List (String × Json))
  | str (s : String)
  | num (n : Int)
  | bool (b : Bool)
  | null
deriving Repr

/-- Python `d.get(k)` on a dict: the value bound to the first occurrence of
the key, if any. -/
def jLookup (kvs : List (String × Json)) (k : String) : Option Json :=
  match kvs with
  | [] => none
  | (k₀, v) :: rest => if k₀ = k then some v else jLookup rest k

/-- The single-quote character, used by the Python repr of strings. -/
def pyQ : String := String.singleton (Char.ofNat 39)

mutual

/-- Python `repr` of a parsed-JSON value (as invoked on the elements of a
container by `str`).  String escaping is not modelled: strings are assumed not
to contain quotes or control characters, which holds for every input
considered here. -/
def pyRepr : Json → String
  | .list xs => "[" ++ pyReprList xs ++ "]"
  | .dict kvs => "\x7b" ++ pyReprKvs kvs ++ "\x7d"
  | .str s => pyQ ++ s ++ pyQ
  | .num n => toString n
  | .bool b => if b then "True" else "False"
  | .null => "None"

/-- Python repr of the members of a list, comma separated. -/
def pyReprList : List Json → String
  | [] => ""
  | [x] => pyRepr x
  | x :: xs => pyRepr x ++ ", " ++ pyReprList xs

/-- Python repr of the members of a dict, comma separated. -/
def pyReprKvs : List (String × Json) → String
  | [] => ""
  | [(k, v)] => pyQ ++ k ++ pyQ ++ ": " ++ pyRepr v
  | (k, v) :: kvs => pyQ ++ k ++ pyQ ++ ": " ++ pyRepr v ++ ", " ++ pyReprKvs kvs

end

/-- Python `str` of a parsed-JSON value: a string is itself, everything else
is its repr.  This is what `str(data)` and f-string interpolation do. -/
def pyStr : Json → String
  | .str s => s
  | j => pyRepr j

/-- Python string slicing `s[:n]`: the first `n` characters. -/
def strTake (s : String) (n : Nat) : String :=
  ⟨s.data.take n⟩

/-- One list is a leading segment of another, character by character: the
model of Python `s.startswith(p)`. -/
def charsLead : List Char → List Char → Bool
  | [], _ => true
  | _ :: _, [] => false
  | p :: ps, c :: cs => p = c && charsLead ps cs

/-- Python `s.startswith(p)`. -/
def pyStartsWith (s p : String) : Bool :=
  charsLead p.data s.data

/-- The characters Python `str.strip` removes: space, tab, newline, carriage
return, vertical tab, form feed. -/
def pySpace (c : Char) : Bool :=
  c = ' ' || c = '\t' || c = '\n' || c = '\r' || c = Char.ofNat 11 || c = Char.ofNat 12

/-- Python `not text or not text.strip()`: the text is empty or every
character is whitespace (`strip` returns the empty string exactly when all
characters are stripped). -/
def blankText (s : String) : Bool :=
  s = "" || s.data.all pySpace

/-- Python `" ".join(l)`. -/
def joinSpace : List String → String
  | [] => ""
  | [s] => s
  | s :: rest => s ++ " " ++ joinSpace rest

/-- One network interaction as `requests` reports it to the caller: either a
response carrying a status code, a raw body text (`resp.text`) and a parsed
JSON body (`resp.json()`), or a raised `requests.exceptions.RequestException`
carrying its message. -/
inductive HResp where
  | status (code : Nat) (text : String) (body : Json)
  | requestException (msg : String)
deriving Repr

/-- What a call to `summarize_via_hf` produces in the model: the returned
value (`none` models Python `None`), the number of HTTP POST calls made, and
the sequence of backoff sleep factors, in order.  A recorded factor `k`
stands for a `time.sleep(backoff * k)` with `k = attempt + 1` (the code uses
`backoff = 1.0` seconds). -/
structure HFOut where
  result : Option String
  calls : Nat
  sleeps : List Nat
deriving Repr, DecidableEq

/-- Parsing of a 2xx response body, lines 75-87 of `main.py`: a non-empty
list whose head is a dict with a `summary_text` field yields that field, a
non-empty list whose head is a string yields that string, a dict with an
`error` field yields a tagged error message, a dict with a `summary_text`
field yields that field, and anything else yields `str(data)` truncated to
1000 characters.  Python returns the raw `summary_text` value, whatever its
type; a non-string value there is modelled by its `str`, and every input used
in this development has a string value. -/
def parseSummary (data : Json) : String :=
  match data with
  | .list (first :: _) =>
    match first with
    | .dict kvs =>
      match jLookup kvs "summary_text" with
      | some v => pyStr v
      | none => strTake (pyStr data) 1000
    | .str s => s
    | _ => strTake (pyStr data) 1000
  | .dict kvs =>
    match jLookup kvs "error" with
    | some v => "Summary error: " ++ pyStr v
    | none =>
      match jLookup kvs "summary_text" with
      | some v => pyStr v
      | none => strTake (pyStr data) 1000
  | _ => strTake (pyStr data) 1000

/-- The retry loop of `summarize_via_hf`, lines 65-94 of `main.py`.  `oracle`
maps the attempt number to the outcome of that attempt's `requests.post`;
`fuel` is the number of loop iterations still allowed by the guard
`attempt <= max_retries`, so the top-level call passes `maxRetries + 1`.
Each iteration makes exactly one network call.  On a 429 the code sleeps
`backoff * (attempt + 1)` and retries unconditionally, the exhaustion being
detected by the loop guard; on another status >= 400 it returns a tagged
error with a 500-character body excerpt; on a raised request exception it
retries the same way only while `attempt < max_retries`, else returns a
tagged failure; otherwise it parses the body. -/
def hfLoop (oracle : Nat → HResp) (maxRetries : Nat) :
    Nat → Nat → List Nat → Nat → HFOut
  | _, calls, sleeps, 0 => ⟨some "Summary unavailable after retries", calls, sleeps⟩
  | attempt, calls, sleeps, fuel + 1 =>
    match oracle attempt with
    | .status code text body =>
      if code = 429 then
        hfLoop oracle maxRetries (attempt + 1) (calls + 1) (sleeps ++ [attempt + 1]) fuel
      else if code ≥ 400 then
        ⟨some ("Summary error (status " ++ toString code ++ "): " ++ strTake text 500),
          calls + 1, sleeps⟩
      else
        ⟨some (parseSummary body), calls + 1, sleeps⟩
    | .requestException msg =>
      if attempt < maxRetries then
        hfLoop oracle maxRetries (attempt + 1) (calls + 1) (sleeps ++ [attempt + 1]) fuel
      else
        ⟨some ("Summary request failed: " ++ msg), calls + 1, sleeps⟩

/-- `summarize_via_hf(text, max_retries=2, backoff=1.0)`, lines 54-94 of
`main.py`.  `tokenConfigured` models whether `HF_API_TOKEN` is set.  The
not-configured check comes first and returns a tagged error string; a blank
text then returns Python `None`; otherwise the retry loop runs with
`max_retries + 1` iterations allowed. -/
def summarize_via_hf (tokenConfigured : Bool) (text : String) (oracle : Nat → HResp)
    (maxRetries : Nat := 2) : HFOut :=
  if !tokenConfigured then
    ⟨some "Summary error: HF_API_TOKEN not configured", 0, []⟩
  else if blankText text then
    ⟨none, 0, []⟩
  else
    hfLoop oracle maxRetries 0 0 [] (maxRetries + 1)

/-- One result item of the response assembled by `search_and_summarize`,
lines 146-154 of `main.py`: the provider fields are carried through as the
JSON values `item.get` produced (absent keys give Python `None`, modelled as
`Option.none`), `content_preview` and `summary` are the strings computed per
item. -/
structure ResultEntry where
  title : Option Json
  url : Option Json
  description : Option Json
  content_preview : Option String
  summary : Option String
deriving Repr

/-- The JSON payload returned by `search_and_summarize` on success, lines
158-164 of `main.py`. -/
structure AggregateResult where
  query : String
  country : String
  ui_lang : String
  results : List ResultEntry
  combined_summary : Option String
deriving Repr

/-- How one request to `/search_summary` ends: an `HTTPException` raised
deliberately with a status and detail, an uncaught Python exception escaping
the handler (surfaced by the framework as a 500), or the JSON payload. -/
inductive RunResult where
  | httpError (code : Nat) (detail : String)
  | uncaught (msg : String)
  | ok (r : AggregateResult)
deriving Repr

/-- Outcome of the trafilatura fetch-and-extract step for one result item,
lines 134-136 of `main.py`: `fetchNone` when `fetch_url` returns a falsy
value, `extractNone` when the download succeeds but `extract` returns `None`,
`extracted t` when `extract` returns the string `t` (the code treats an empty
`t` as falsy, hence as no content), and `raised msg` when an exception
escapes the fetch or extract call. -/
inductive ExtractOutcome where
  | fetchNone
  | extractNone
  | extracted (t : String)
  | raised (msg : String)
deriving Repr

/-- Line 128 of `main.py`: `data.get("web", {}).get("results", [])[:7]`
decomposed by Python semantics, returning either the result list (before the
`[:7]` slice) or the uncaught exception the expression raises.  A non-dict
body or a non-dict value under `web` has no `get` attribute; a missing key
falls back to the default, so the loop runs over `[]`; a non-list, non-string
value under `results` cannot be sliced; a non-empty string under `results`
slices fine but its characters then crash at `item.get("url")` on line 129,
which sits outside the per-item `try`, so it is reported here as the same
request-level failure. -/
def getResults (data : Json) : Except String (List Json) :=
  match data with
  | .dict kvs =>
    match jLookup kvs "web" with
    | none => .ok []
    | some (.dict kvs₂) =>
      match jLookup kvs₂ "results" with
      | none => .ok []
      | some (.list xs) => .ok xs
      | some (.str s) => if s = "" then .ok [] else .error "AttributeError: str object has no attribute get"
      | some _ => .error "TypeError: unhashable type: slice"
    | some _ => .error "AttributeError: object has no attribute get"
  | _ => .error "AttributeError: response body object has no attribute get"

/-- The per-item body of the loop at lines 128-154 of `main.py`.  A non-dict
item crashes at `item.get("url")` outside the `try`.  Otherwise the fetch and
extract outcome is examined: extracted text is truncated to 900 characters
into `content_preview` and summarized; an exception is caught by the handler
at lines 142-144, which stores an `Error extracting:` message in
`content_preview`.  The summary is appended to `url_summaries` only when it
is truthy (not `None`, not empty) and starts with neither `Summary error`
nor `Summary request failed`; the appended string, if any, is returned next
to the entry. -/
def processItem (hfTok : Bool) (item : Json) (ext : ExtractOutcome)
    (oracle : Nat → HResp) : Except String (ResultEntry × Option String) :=
  match item with
  | .dict kvs =>
    let pair : Option String × Option String :=
      match ext with
      | .raised msg => (some ("Error extracting: " ++ msg), none)
      | .fetchNone => (none, none)
      | .extractNone => (none, none)
      | .extracted t =>
        if t = "" then (none, none)
        else
          let preview := strTake t 900
          (some preview, (summarize_via_hf hfTok preview oracle).result)
    let appended : Option String :=
      match pair.2 with
      | none => none
      | some s =>
        if s ≠ "" && !pyStartsWith s "Summary error" && !pyStartsWith s "Summary request failed"
        then some s else none
    .ok ({ title := jLookup kvs "title", url := jLookup kvs "url",
           description := jLookup kvs "description",
           content_preview := pair.1, summary := pair.2 }, appended)
  | _ => .error "AttributeError: item object has no attribute get"

/-- The whole result loop: processes the items in order, threading the index
`i` that selects each item's extraction outcome `exts i` and summarizer
response oracle `oracles i`, and collecting the entries and the appended
summaries in order.  A per-item crash (non-dict item) aborts the request. -/
def processAll (hfTok : Bool) (items : List Json) (exts : Nat → ExtractOutcome)
    (oracles : Nat → Nat → HResp) (i : Nat) :
    Except String (List ResultEntry × List String) :=
  match items with
  | [] => .ok ([], [])
  | item :: rest =>
    match processItem hfTok item (exts i) (oracles i) with
    | .error m => .error m
    | .ok (entry, appended) =>
      match processAll hfTok rest exts oracles (i + 1) with
      | .error m => .error m
      | .ok (entries, sums) =>
        .ok (entry :: entries,
             match appended with
             | some s => s :: sums
             | none => sums)

/-- `search_and_summarize`, lines 97-164 of `main.py`.  `braveKey` models
whether `BRAVE_API_KEY` is set and `brave` the outcome of the single
`requests.get` against the search provider.  A missing key raises a 500
before any network call; a request exception or a non-200 status raises a
502; otherwise the result list is located in the body, sliced to 7 items,
and each item is processed in order; `combined_summary` joins the appended
summaries with spaces when there are any and is `None` otherwise. -/
def search_and_summarize (braveKey hfTok : Bool) (q country ui_lang : String)
    (brave : HResp) (exts : Nat → ExtractOutcome)
    (oracles : Nat → Nat → HResp) : RunResult :=
  if !braveKey then .httpError 500 "BRAVE_API_KEY not configured"
  else
    match brave with
    | .requestException msg => .httpError 502 ("Brave API request failed: " ++ msg)
    | .status code _text body =>
      if code ≠ 200 then .httpError 502 ("Brave API: " ++ toString code)
      else
        match getResults body with
        | .error m => .uncaught m
        | .ok items =>
          match processAll hfTok (items.take 7) exts oracles 0 with
          | .error m => .uncaught m
          | .ok (entries, sums) =>
            .ok { query := q, country := country, ui_lang := ui_lang,
                  results := entries,
                  combined_summary :=
                    if sums.isEmpty then none else some (joinSpace sums) }

/-- The title, url or description field of a provider result item, as
`item.get` reads it: present only when the item is a dict containing the
key. -/
def itemField (j : Json) (k : String) : Option Json :=
  match j with
  | .dict kvs => jLookup kvs k
  | _ => none

/-- A rate-limited response from the summarization endpoint. -/
def resp429 : HResp := .status 429 "" .null

/-- A successful summarization response in the usual provider format: a
one-element list whose element is a dict with a `summary_text` field. -/
def resp200 (s : String) : HResp :=
  .status 200 "" (.list [.dict [("summary_text", .str s)]])

/-- A search-provider body with one ranked result item, used as the concrete
input of several evaluations below. -/
def demoBody : Json :=
  .dict [("web", .dict [("results",
    .list [.dict [("title", .str "T"), ("url", .str "U"),
                  ("description", .str "D")]])])]

/-- Truncating a non-empty string to a positive number of characters leaves a
non-empty string. -/
lemma strTake_ne_empty (s : String) (n : Nat) (hs : s ≠ "") (hn : n ≠ 0) :
    strTake s n ≠ "" := by
  intro h
  apply hs
  unfold strTake at h
  have hd : s.data.take n = [] := by
    have := congrArg String.data h
    simpa using this
  rcases List.take_eq_nil_iff.mp hd with h1 | h1
  · exact absurd h1 hn
  · cases s with
    | mk data => simp_all

/-- Any entry produced by the per-item loop that carries a summary carries a
non-empty content preview: the summary is only computed in the branch that
first stores the 900-character truncation of the non-empty extracted text. -/
lemma processItem_preview (hfTok : Bool) (item : Json) (ext : ExtractOutcome)
    (orc : Nat → HResp) (entry : ResultEntry) (app : Option String)
    (h : processItem hfTok item ext orc = .ok (entry, app)) (hs : entry.summary ≠ none) :
    entry.content_preview ≠ none ∧ entry.content_preview ≠ some "" := by
  cases item with
  | dict kvs =>
    cases ext with
    | raised msg =>
      simp [processItem] at h
      obtain ⟨h1, h2⟩ := h
      rw [← h1] at hs
      simp at hs
    | fetchNone =>
      simp [processItem] at h
      obtain ⟨h1, h2⟩ := h
      rw [← h1] at hs
      simp at hs
    | extractNone =>
      simp [processItem] at h
      obtain ⟨h1, h2⟩ := h
      rw [← h1] at hs
      simp at hs
    | extracted t =>
      by_cases ht : t = ""
      · simp [processItem, ht] at h
        obtain ⟨h1, h2⟩ := h
        rw [← h1] at hs
        simp at hs
      · simp [processItem, ht] at h
        obtain ⟨h1, h2⟩ := h
        rw [← h1]
        simp
        exact strTake_ne_empty t 900 ht (by decide)
  | list xs => simp [processItem] at h
  | str s => simp [processItem] at h
  | num n => simp [processItem] at h
  | bool b => simp [processItem] at h
  | null => simp [processItem] at h

/-- The preview invariant of `processItem_preview` lifted to the whole result
loop. -/
lemma processAll_preview (hfTok : Bool) (exts : Nat → ExtractOutcome)
    (oracles : Nat → Nat → HResp) :
    ∀ (items : List Json) (i : Nat) (entries : List ResultEntry) (sums : List String),
      processAll hfTok items exts oracles i = .ok (entries, sums) →
      ∀ e ∈ entries, e.summary ≠ none →
        e.content_preview ≠ none ∧ e.content_preview ≠ some "" := by
  intro items
  induction items with
  | nil =>
    intro i entries sums h e he
    simp [processAll] at h
    obtain ⟨h1, h2⟩ := h
    subst h1
    simp at he
  | cons item rest ih =>
    intro i entries sums h e he hs
    rw [processAll] at h
    cases hpi : processItem hfTok item (exts i) (oracles i) with
    | error m => rw [hpi] at h; simp at h
    | ok pr =>
      obtain ⟨entry, app⟩ := pr
      rw [hpi] at h
      cases hpa : processAll hfTok rest exts oracles (i + 1) with
      | error m => rw [hpa] at h; simp at h
      | ok pr2 =>
        obtain ⟨entries2, sums2⟩ := pr2
        rw [hpa] at h
        simp at h
        obtain ⟨h1, h2⟩ := h
        subst h1
        rcases List.mem_cons.mp he with rfl | hmem
        · exact processItem_preview hfTok item (exts i) (oracles i) e app hpi hs
        · exact ih (i + 1) entries2 sums2 hpa e hmem hs

/-- The per-item loop copies the title, url and description of the processed
item into its entry unchanged. -/
lemma processItem_fields (hfTok : Bool) (item : Json) (ext : ExtractOutcome)
    (orc : Nat → HResp) (entry : ResultEntry) (app : Option String)
    (h : processItem hfTok item ext orc = .ok (entry, app)) :
    entry.title = itemField item "title" ∧ entry.url = itemField item "url" ∧
      entry.description = itemField item "description" := by
  cases item with
  | dict kvs =>
    simp [processItem] at h
    obtain ⟨h1, h2⟩ := h
    rw [← h1]
    simp [itemField]
  | list xs => simp [processItem] at h
  | str s => simp [processItem] at h
  | num n => simp [processItem] at h
  | bool b => simp [processItem] at h
  | null => simp [processItem] at h

/-- The result loop emits exactly one entry per processed item, in order,
each carrying the fields of its item. -/
lemma processAll_shape (hfTok : Bool) (exts : Nat → ExtractOutcome)
    (oracles : Nat → Nat → HResp) :
    ∀ (items : List Json) (i : Nat) (entries : List ResultEntry) (sums : List String),
      processAll hfTok items exts oracles i = .ok (entries, sums) →
      entries.length = items.length ∧
        entries.map (fun e => (e.title, e.url, e.description)) =
          items.map (fun j =>
            (itemField j "title", itemField j "url", itemField j "description")) := by
  intro items
  induction items with
  | nil =>
    intro i entries sums h
    simp [processAll] at h
    obtain ⟨h1, h2⟩ := h
    subst h1
    simp
  | cons item rest ih =>
    intro i entries sums h
    rw [processAll] at h
    cases hpi : processItem hfTok item (exts i) (oracles i) with
    | error m => rw [hpi] at h; simp at h
    | ok pr =>
      obtain ⟨entry, app⟩ := pr
      rw [hpi] at h
      cases hpa : processAll hfTok rest exts oracles (i + 1) with
      | error m => rw [hpa] at h; simp at h
      | ok pr2 =>
        obtain ⟨entries2, sums2⟩ := pr2
        rw [hpa] at h
        simp at h
        obtain ⟨h1, h2⟩ := h
        subst h1
        obtain ⟨ht, hu, hd⟩ := processItem_fields hfTok item (exts i) (oracles i) entry app hpi
        obtain ⟨ihl, ihm⟩ := ih (i + 1) entries2 sums2 hpa
        simp [ihl, ihm, ht, hu, hd]

/-- A summary string appended to `url_summaries` by the per-item loop is the
summary recorded in the entry, and the truthiness test on line 140 of
`main.py` guarantees it is non-empty. -/
lemma appended_ne_empty (hfTok : Bool) (item : Json) (ext : ExtractOutcome)
    (orc : Nat → HResp) (entry : ResultEntry) (s : String)
    (h : processItem hfTok item ext orc = .ok (entry, some s)) :
    entry.summary = some s ∧ s ≠ "" := by
  cases item with
  | dict kvs =>
    cases ext with
    | raised msg => simp [processItem] at h
    | fetchNone => simp [processItem] at h
    | extractNone => simp [processItem] at h
    | extracted t =>
      by_cases ht : t = ""
      · simp [processItem, ht] at h
      · cases hres : (summarize_via_hf hfTok (strTake t 900) orc).result with
        | none => simp [processItem, ht, hres] at h
        | some s₂ =>
          simp [processItem, ht, hres] at h
          obtain ⟨h1, h2⟩ := h
          obtain ⟨⟨⟨hg1, hg2⟩, hg3⟩, rfl⟩ := h2
          rw [← h1]
          exact ⟨rfl, hg1⟩
  | list xs => simp [processItem] at h
  | str s => simp [processItem] at h
  | num n => simp [processItem] at h
  | bool b => simp [processItem] at h
  | null => simp [processItem] at h

/-- Every member of the collected `url_summaries` list is non-empty. -/
lemma processAll_sums_ne (hfTok : Bool) (exts : Nat → ExtractOutcome)
    (oracles : Nat → Nat → HResp) :
    ∀ (items : List Json) (i : Nat) (entries : List ResultEntry) (sums : List String),
      processAll hfTok items exts oracles i = .ok (entries, sums) →
      ∀ s ∈ sums, s ≠ "" := by
  intro items
  induction items with
  | nil =>
    intro i entries sums h s hs
    simp [processAll] at h
    obtain ⟨h1, h2⟩ := h
    subst h2
    simp at hs
  | cons item rest ih =>
    intro i entries sums h s hs
    rw [processAll] at h
    cases hpi : processItem hfTok item (exts i) (oracles i) with
    | error m => rw [hpi] at h; simp at h
    | ok pr =>
      obtain ⟨entry, app⟩ := pr
      rw [hpi] at h
      cases hpa : processAll hfTok rest exts oracles (i + 1) with
      | error m => rw [hpa] at h; simp at h
      | ok pr2 =>
        obtain ⟨entries2, sums2⟩ := pr2
        rw [hpa] at h
        simp at h
        obtain ⟨h1, h2⟩ := h
        subst h2
        cases app with
        | none => exact ih (i + 1) entries2 sums2 hpa s hs
        | some s₃ =>
          rcases List.mem_cons.mp hs with rfl | hmem
          · exact (appended_ne_empty hfTok item (exts i) (oracles i) entry s hpi).2
          · exact ih (i + 1) entries2 sums2 hpa s hmem

/-- Inversion of a successful request: the key was configured, the provider
answered with status 200, the body parsed to a result list, the first 7 items
all processed without an uncaught exception, and the payload is assembled
from the collected entries and summaries. -/
lemma run_ok_inv (braveKey hfTok : Bool) (q c l : String) (brave : HResp)
    (exts : Nat → ExtractOutcome) (oracles : Nat → Nat → HResp) (r : AggregateResult)
    (h : search_and_summarize braveKey hfTok q c l brave exts oracles = .ok r) :
    braveKey = true ∧ ∃ code text body items entries sums,
      brave = .status code text body ∧ code = 200 ∧ getResults body = .ok items ∧
      processAll hfTok (items.take 7) exts oracles 0 = .ok (entries, sums) ∧
      r = ⟨q, c, l, entries, if sums = [] then none else some (joinSpace sums)⟩ := by
  cases braveKey with
  | false => simp [search_and_summarize] at h
  | true =>
    cases brave with
    | requestException msg => simp [search_and_summarize] at h
    | status code text body =>
      by_cases hc : code = 200
      · subst hc
        simp [search_and_summarize] at h
        cases hget : getResults body with
        | error m => rw [hget] at h; simp at h
        | ok items =>
          rw [hget] at h
          simp at h
          cases hall : processAll hfTok (items.take 7) exts oracles 0 with
          | error m => rw [hall] at h; simp at h
          | ok pr =>
            obtain ⟨entries, sums⟩ := pr
            rw [hall] at h
            simp at h
            exact ⟨rfl, 200, text, body, items, entries, sums, rfl, rfl, hget, hall, h.symm⟩
      · simp [search_and_summarize, hc] at h

/-- C1: the claim states that `combined_summary` never contains text from an
item whose summarization outcome is an error, for every summarizer return
value including the retries-exhausted one.  The code violates it: the filter
on line 140 of `main.py` recognizes only the `Summary error` and
`Summary request failed` prefixes, so the retries-exhausted error string
`Summary unavailable after retries` produced on line 94 passes the filter.
This theorem evaluates the pipeline at the failing input: one result item
whose page text summarization receives 429 on all three attempts; the
summarizer returns the error outcome, yet it is concatenated into
`combined_summary`. -/
theorem combined_includes_retries_exhausted_error :
    summarize_via_hf true "hello world" (fun _ => resp429) =
      ⟨some "Summary unavailable after retries", 3, [1, 2, 3]⟩ ∧
    search_and_summarize true true "q" "US" "en-US" (.status 200 "" demoBody)
        (fun _ => .extracted "hello world") (fun _ _ => resp429) =
      .ok ⟨"q", "US", "en-US",
        [⟨some (.str "T"), some (.str "U"), some (.str "D"),
          some "hello world", some "Summary unavailable after retries"⟩],
        some "Summary unavailable after retries"⟩ :=
  ⟨rfl, rfl⟩

/-- C2 counterexample: with the summarizer credential absent and empty input,
the code returns the not-configured error string, not the Empty outcome
(`none`), because the credential check on line 55 of `main.py` precedes the
blank-input check on line 57.  This refutes the claim's phrase `regardless of
any other configuration state`. -/
theorem blank_unconfigured_not_empty :
    (summarize_via_hf false "" (fun _ => HResp.status 200 "" .null)).result =
      some "Summary error: HF_API_TOKEN not configured" ∧
    (summarize_via_hf false "" (fun _ => HResp.status 200 "" .null)).result ≠ none :=
  ⟨rfl, by decide⟩

/-- C2 (amended): when the summarizer credential is configured, empty or
whitespace-only input returns the Empty outcome (`none`) immediately with
zero network calls; when the credential is absent the not-configured error
string takes precedence, still with zero network calls. -/
theorem blank_input_empty_when_configured (text : String) (oracle : Nat → HResp)
    (h : blankText text = true) :
    summarize_via_hf true text oracle = ⟨none, 0, []⟩ ∧
    summarize_via_hf false text oracle =
      ⟨some "Summary error: HF_API_TOKEN not configured", 0, []⟩ := by
  constructor <;> simp [summarize_via_hf, h]

/-- C2 witness: the single-space input with a stub oracle. -/
theorem blank_input_empty_when_configured_witness :
    summarize_via_hf true " " (fun _ => HResp.status 200 "" .null) = ⟨none, 0, []⟩ ∧
    summarize_via_hf false " " (fun _ => HResp.status 200 "" .null) =
      ⟨some "Summary error: HF_API_TOKEN not configured", 0, []⟩ :=
  blank_input_empty_when_configured " " (fun _ => HResp.status 200 "" .null) (by decide)

/-- C3: with the default `max_retries = 2` (3 total attempts) and linear
backoff, a response sequence of exactly two 429 statuses followed by a 200
carrying a summary yields that summary as a successful return after exactly 3
network calls, with backoff sleep factors 1 and 2; a sequence of three 429
statuses yields the `Summary unavailable after retries` error outcome, also
after exactly 3 calls, with sleep factors 1, 2 and 3. -/
theorem retry_two_429_then_ok_three_429_error (text s : String)
    (h : blankText text = false) :
    summarize_via_hf true text (fun i => if i < 2 then resp429 else resp200 s) =
      ⟨some s, 3, [1, 2]⟩ ∧
    summarize_via_hf true text (fun _ => resp429) =
      ⟨some "Summary unavailable after retries", 3, [1, 2, 3]⟩ := by
  constructor <;>
    simp [summarize_via_hf, h, hfLoop, resp429, resp200, parseSummary, jLookup, pyStr]

/-- C3 witness: the input `hi` with summary `OK`. -/
theorem retry_two_429_then_ok_three_429_error_witness :
    summarize_via_hf true "hi" (fun i => if i < 2 then resp429 else resp200 "OK") =
      ⟨some "OK", 3, [1, 2]⟩ ∧
    summarize_via_hf true "hi" (fun _ => resp429) =
      ⟨some "Summary unavailable after retries", 3, [1, 2, 3]⟩ :=
  retry_two_429_then_ok_three_429_error "hi" "OK" (by decide)

/-- C4 counterexample: an exception raised during fetch or extraction is
caught, but it is not converted to the no-content outcome: the handler on
line 144 of `main.py` stores `Error extracting: <message>` in the item's
`content_preview`, so the preview is present and carries the
extractor-internal error text, refuting the claim's `content_preview absent`
and `no extractor-internal error is recorded`. -/
theorem extraction_error_recorded_in_preview :
    search_and_summarize true true "q" "US" "en-US" (.status 200 "" demoBody)
        (fun _ => .raised "boom") (fun _ _ => resp429) =
      .ok ⟨"q", "US", "en-US",
        [⟨some (.str "T"), some (.str "U"), some (.str "D"),
          some "Error extracting: boom", none⟩], none⟩ ∧
    (some "Error extracting: boom" : Option String) ≠ none :=
  ⟨rfl, by simp⟩

/-- C4 (amended): any unexpected exception during page fetch or extraction is
caught and never propagated — the item still yields an entry, its summary is
absent and nothing is appended to the combined summary — but
`content_preview` is set to the error message `Error extracting: <message>`
rather than left absent. -/
theorem extraction_exception_caught_preview_records_error (hfTok : Bool)
    (kvs : List (String × Json)) (msg : String) (orc : Nat → HResp) :
    processItem hfTok (.dict kvs) (.raised msg) orc =
      .ok ({ title := jLookup kvs "title", url := jLookup kvs "url",
             description := jLookup kvs "description",
             content_preview := some ("Error extracting: " ++ msg),
             summary := none }, none) := by
  simp [processItem]

/-- C5: in every successful response, an item that carries a summary carries
a present, non-empty content preview: the summary is only computed after the
non-empty extracted text is truncated into `content_preview`, and the
extraction-failure paths leave the summary absent. -/
theorem summary_present_implies_preview_nonempty (braveKey hfTok : Bool)
    (q c l : String) (brave : HResp) (exts : Nat → ExtractOutcome)
    (oracles : Nat → Nat → HResp) (r : AggregateResult) (e : ResultEntry)
    (hrun : search_and_summarize braveKey hfTok q c l brave exts oracles = .ok r)
    (he : e ∈ r.results) (hs : e.summary ≠ none) :
    e.content_preview ≠ none ∧ e.content_preview ≠ some "" := by
  obtain ⟨hb, code, text, body, items, entries, sums, hbr, hcode, hget, hall, hr⟩ :=
    run_ok_inv braveKey hfTok q c l brave exts oracles r hrun
  subst hr
  exact processAll_preview hfTok exts oracles (items.take 7) 0 entries sums hall e he hs

/-- C5 witness: a one-item run whose entry has summary `A` and preview
`hi`. -/
theorem summary_present_implies_preview_nonempty_witness :
    (⟨some (.str "T"), some (.str "U"), some (.str "D"), some "hi", some "A"⟩ :
        ResultEntry).content_preview ≠ none ∧
    (⟨some (.str "T"), some (.str "U"), some (.str "D"), some "hi", some "A"⟩ :
        ResultEntry).content_preview ≠ some "" :=
  summary_present_implies_preview_nonempty true true "q" "US" "en-US"
    (.status 200 "" demoBody) (fun _ => .extracted "hi") (fun _ _ => resp200 "A")
    ⟨"q", "US", "en-US",
      [⟨some (.str "T"), some (.str "U"), some (.str "D"), some "hi", some "A"⟩],
      some "A"⟩
    ⟨some (.str "T"), some (.str "U"), some (.str "D"), some "hi", some "A"⟩
    rfl (by simp) (by simp)

/-- C6: in every successful response, the results sequence has at most 7
entries and at most as many entries as the provider returned, with exactly
one entry per retained provider item carrying that item's title, url and
description, in the provider's ranking order. -/
theorem results_capped_one_per_item_ordered (hfTok : Bool) (q c l text : String)
    (body : Json) (items : List Json) (exts : Nat → ExtractOutcome)
    (oracles : Nat → Nat → HResp) (r : AggregateResult)
    (hget : getResults body = .ok items)
    (hrun : search_and_summarize true hfTok q c l (.status 200 text body) exts oracles =
      .ok r) :
    r.results.length ≤ 7 ∧ r.results.length ≤ items.length ∧
      r.results.map (fun e => (e.title, e.url, e.description)) =
        (items.take 7).map
          (fun j => (itemField j "title", itemField j "url", itemField j "description")) := by
  obtain ⟨hb, code, text₂, body₂, items₂, entries, sums, hbr, hcode, hget₂, hall, hr⟩ :=
    run_ok_inv true hfTok q c l (.status 200 text body) exts oracles r hrun
  cases hbr
  rw [hget] at hget₂
  cases hget₂
  subst hr
  obtain ⟨hlen, hmap⟩ := processAll_shape hfTok exts oracles (items.take 7) 0 entries sums hall
  refine ⟨?_, ?_, hmap⟩
  · simp [hlen, List.length_take]
  · simp [hlen, List.length_take]

/-- C6 witness: a one-item provider body. -/
theorem results_capped_one_per_item_ordered_witness :
    (⟨"q", "US", "en-US",
      [⟨some (.str "T"), some (.str "U"), some (.str "D"), some "hi", some "A"⟩],
      some "A"⟩ : AggregateResult).results.length ≤ 7 ∧
    (⟨"q", "US", "en-US",
      [⟨some (.str "T"), some (.str "U"), some (.str "D"), some "hi", some "A"⟩],
      some "A"⟩ : AggregateResult).results.length ≤
      [Json.dict [("title", Json.str "T"), ("url", Json.str "U"),
        ("description", Json.str "D")]].length ∧
    (⟨"q", "US", "en-US",
      [⟨some (.str "T"), some (.str "U"), some (.str "D"), some "hi", some "A"⟩],
      some "A"⟩ : AggregateResult).results.map (fun e => (e.title, e.url, e.description)) =
      ([Json.dict [("title", Json.str "T"), ("url", Json.str "U"),
        ("description", Json.str "D")]].take 7).map
        (fun j => (itemField j "title", itemField j "url", itemField j "description")) :=
  results_capped_one_per_item_ordered true "q" "US" "en-US" "" demoBody
    [Json.dict [("title", Json.str "T"), ("url", Json.str "U"),
      ("description", Json.str "D")]]
    (fun _ => .extracted "hi") (fun _ _ => resp200 "A")
    ⟨"q", "US", "en-US",
      [⟨some (.str "T"), some (.str "U"), some (.str "D"), some "hi", some "A"⟩],
      some "A"⟩
    rfl rfl

/-- C7 counterexample: a 200 search response whose body is a JSON list (a
malformed shape for the expected object) does not produce an empty results
payload: `data.get` raises an uncaught `AttributeError` on line 128 of
`main.py` and the request fails, refuting the claim for malformed shapes. -/
theorem malformed_body_uncaught :
    search_and_summarize true true "q" "US" "en-US" (.status 200 "" (.list []))
        (fun _ => .fetchNone) (fun _ _ => resp429) =
      .uncaught "AttributeError: response body object has no attribute get" :=
  rfl

/-- C7 (amended): when the 200 response body is a JSON object that lacks the
`web` key, or whose `web` object lacks the `results` key, the pipeline treats
the result list as empty and completes normally with empty results and no
combined summary; but a body of a malformed shape (for instance a top-level
list) raises an uncaught error instead. -/
theorem missing_results_keys_empty_results (hfTok : Bool) (q c l text : String)
    (exts : Nat → ExtractOutcome) (oracles : Nat → Nat → HResp)
    (kvs kvsA kvs₂ : List (String × Json))
    (h1 : jLookup kvs "web" = none)
    (h2 : jLookup kvsA "web" = some (.dict kvs₂))
    (h3 : jLookup kvs₂ "results" = none) :
    search_and_summarize true hfTok q c l (.status 200 text (.dict kvs)) exts oracles =
      .ok ⟨q, c, l, [], none⟩ ∧
    search_and_summarize true hfTok q c l (.status 200 text (.dict kvsA)) exts oracles =
      .ok ⟨q, c, l, [], none⟩ := by
  constructor
  · simp [search_and_summarize, getResults, h1, processAll]
  · simp [search_and_summarize, getResults, h2, h3, processAll]

/-- C7 witness: the empty object body and the body whose `web` object is
empty. -/
theorem missing_results_keys_empty_results_witness :
    search_and_summarize true true "q" "US" "en-US" (.status 200 "" (.dict []))
        (fun _ => .fetchNone) (fun _ _ => resp429) = .ok ⟨"q", "US", "en-US", [], none⟩ ∧
    search_and_summarize true true "q" "US" "en-US"
        (.status 200 "" (.dict [("web", .dict [])]))
        (fun _ => .fetchNone) (fun _ _ => resp429) = .ok ⟨"q", "US", "en-US", [], none⟩ :=
  missing_results_keys_empty_results true "q" "US" "en-US" ""
    (fun _ => .fetchNone) (fun _ _ => resp429) [] [("web", .dict [])] [] rfl rfl rfl

/-- C8: when the search credential is absent the request fails with the
500-class configuration error, whatever the rest of the environment would
have answered: the result does not depend on the search response, the
extraction outcomes or the summarizer responses, so no network call and no
per-item processing can influence it. -/
theorem missing_brave_key_500 (hfTok : Bool) (q c l : String) (brave : HResp)
    (exts : Nat → ExtractOutcome) (oracles : Nat → Nat → HResp) :
    search_and_summarize false hfTok q c l brave exts oracles =
      .httpError 500 "BRAVE_API_KEY not configured" :=
  rfl

/-- C9: every search-provider response with a status other than exactly 200,
including other success statuses such as 201 or 204, makes the whole request
fail with the 502-class upstream error carrying the status, and no result
entries are produced. -/
theorem non_200_search_status_502 (hfTok : Bool) (q c l text : String) (body : Json)
    (code : Nat) (exts : Nat → ExtractOutcome) (oracles : Nat → Nat → HResp)
    (h : code ≠ 200) :
    search_and_summarize true hfTok q c l (.status code text body) exts oracles =
      .httpError 502 ("Brave API: " ++ toString code) := by
  simp [search_and_summarize, h]

/-- C9 witness: the success status 201. -/
theorem non_200_search_status_502_witness :
    search_and_summarize true true "q" "US" "en-US" (.status 201 "" demoBody)
        (fun _ => .fetchNone) (fun _ _ => resp429) =
      .httpError 502 ("Brave API: " ++ toString 201) :=
  non_200_search_status_502 true "q" "US" "en-US" "" demoBody 201
    (fun _ => .fetchNone) (fun _ _ => resp429) (by decide)

/-- C10: when the summarizer returns the empty string as a successful
summary for an item with non-empty extracted text, the entry records the
empty string in its summary field while nothing is appended for it to the
combined-summary list (the truthiness test on line 140 of `main.py` rejects
the empty string); and every string collected into the combined-summary
concatenation by the loop is non-empty. -/
theorem empty_summary_recorded_not_combined (hfTok : Bool)
    (kvs : List (String × Json)) (t : String) (orc : Nat → HResp)
    (items : List Json) (exts : Nat → ExtractOutcome) (oracles : Nat → Nat → HResp)
    (i : Nat) (entries : List ResultEntry) (sums : List String) (s : String)
    (ht : t ≠ "") (hsum : (summarize_via_hf hfTok (strTake t 900) orc).result = some "")
    (hall : processAll hfTok items exts oracles i = .ok (entries, sums)) (hs : s ∈ sums) :
    processItem hfTok (.dict kvs) (.extracted t) orc =
      .ok ({ title := jLookup kvs "title", url := jLookup kvs "url",
             description := jLookup kvs "description",
             content_preview := some (strTake t 900), summary := some "" }, none) ∧
    s ≠ "" := by
  constructor
  · simp [processItem, ht, hsum]
  · exact processAll_sums_ne hfTok exts oracles items i entries sums hall s hs

/-- C10 witness: an item whose summarizer answers the empty summary, next to
a loop run that collected the non-empty summary `A`. -/
theorem empty_summary_recorded_not_combined_witness :
    processItem true (.dict []) (.extracted "hi") (fun _ => resp200 "") =
      .ok ({ title := jLookup [] "title", url := jLookup [] "url",
             description := jLookup [] "description",
             content_preview := some (strTake "hi" 900), summary := some "" }, none) ∧
    "A" ≠ "" :=
  empty_summary_recorded_not_combined true [] "hi" (fun _ => resp200 "")
    [Json.dict []] (fun _ => .extracted "hi") (fun _ _ => resp200 "A") 0
    [⟨none, none, none, some "hi", some "A"⟩] ["A"] "A"
    (by decide) rfl rfl (by simp)
